import Mathlib

/-!
Verification of the content-layout dispatch core (`src/eval/library.rs` and
`src/layout/nodes/mod.rs`) against its natural-language specification.

Shallow embedding conventions:
* Function-pointer bindings of `LangItems` are modelled by their identity
  (the address that `ptr as usize` / fn-pointer hashing feeds to the hasher),
  as a `Nat`.  Equality of two bindings in the model corresponds to equality
  of the function pointers in the source.
* `util::hash128` composed with `impl Hash for LangItems` is modelled as the
  exact sequence of words that the `Hash` impl feeds to the hasher, in source
  order.  This is the standard collision-free abstraction of a hash: two
  tables have the same model hash iff the `Hash` impl feeds identical data.
* The `OnceCell` global `LANG_ITEMS` is modelled by explicit state passing of
  an `Option LangItems`.  A panic (`assert_eq!` failure or `unwrap` on an
  empty cell) is modelled by `Except.error` (for `set_lang_items`) or by
  `none` (for the `item!` accessor).
-/

namespace Typst

/-- `LangItems` (`src/eval/library.rs`, lines 32–101): the 28 bindings of the
language-item table, in source order.  Each function-pointer binding (and the
`text_id : NodeId`) is modelled by its identity as a `Nat`. -/
structure LangItems where
  layout : Nat
  em : Nat
  dir : Nat
  space : Nat
  linebreak : Nat
  text : Nat
  text_id : Nat
  text_str : Nat
  smart_quote : Nat
  parbreak : Nat
  strong : Nat
  emph : Nat
  raw : Nat
  raw_languages : Nat
  link : Nat
  reference : Nat
  bibliography_keys : Nat
  heading : Nat
  list_item : Nat
  enum_item : Nat
  term_item : Nat
  formula : Nat
  math_align_point : Nat
  math_delimited : Nat
  math_attach : Nat
  math_accent : Nat
  math_frac : Nat
  counter_method : Nat
deriving DecidableEq

/-- The content hash of a table, `util::hash128` over `impl Hash for
LangItems` (lines 109–137): the data fed to the hasher, in source order.
Exactly 25 of the 28 bindings are hashed; `raw_languages`,
`bibliography_keys` and `counter_method` do not appear in the `Hash` impl. -/
def hash128 (t : LangItems) : List Nat :=
  [t.layout, t.em, t.dir, t.space, t.linebreak, t.text, t.text_id,
   t.text_str, t.smart_quote, t.parbreak, t.strong, t.emph, t.raw, t.link,
   t.reference, t.heading, t.list_item, t.enum_item, t.term_item, t.formula,
   t.math_align_point, t.math_delimited, t.math_attach, t.math_accent,
   t.math_frac]

/-- `set_lang_items` (lines 150–156) acting on the state of the `LANG_ITEMS`
`OnceCell`.  If the cell is empty, `OnceCell::set` stores the table.  If it
is already set, `OnceCell::set` fails keeping the stored table, and the
function compares `hash128` of the stored table with `hash128` of the new
one: equal hashes return normally (state unchanged), differing hashes hit
`assert_eq!(first, second, "set differing lang items")`, a panic, modelled
as `Except.error`. -/
def set_lang_items (s : Option LangItems) (items : LangItems) :
    Except String (Option LangItems) :=
  match s with
  | none => Except.ok (some items)
  | some first =>
      if hash128 first = hash128 items then Except.ok (some first)
      else Except.error "set differing lang items"

/-- The closed set of syntactic roles, one per `LangItems` binding. -/
inductive Role where
  | layout | em | dir | space | linebreak | text | text_id | text_str
  | smart_quote | parbreak | strong | emph | raw | raw_languages | link
  | reference | bibliography_keys | heading | list_item | enum_item
  | term_item | formula | math_align_point | math_delimited | math_attach
  | math_accent | math_frac | counter_method
deriving DecidableEq

/-- Field selection `items.$name`, as performed by the `item!` macro after
the `unwrap`. -/
def LangItems.get (t : LangItems) : Role → Nat
  | .layout => t.layout
  | .em => t.em
  | .dir => t.dir
  | .space => t.space
  | .linebreak => t.linebreak
  | .text => t.text
  | .text_id => t.text_id
  | .text_str => t.text_str
  | .smart_quote => t.smart_quote
  | .parbreak => t.parbreak
  | .strong => t.strong
  | .emph => t.emph
  | .raw => t.raw
  | .raw_languages => t.raw_languages
  | .link => t.link
  | .reference => t.reference
  | .bibliography_keys => t.bibliography_keys
  | .heading => t.heading
  | .list_item => t.list_item
  | .enum_item => t.enum_item
  | .term_item => t.term_item
  | .formula => t.formula
  | .math_align_point => t.math_align_point
  | .math_delimited => t.math_delimited
  | .math_attach => t.math_attach
  | .math_accent => t.math_accent
  | .math_frac => t.math_frac
  | .counter_method => t.counter_method

/-- The `item!` macro (lines 159–163):
`LANG_ITEMS.get().unwrap().$name`.  `none` models the `unwrap` panic when
the registry has not been installed; `some` carries the looked-up binding. -/
def item (s : Option LangItems) (r : Role) : Option Nat :=
  match s with
  | none => none
  | some t => some (t.get r)

/-- A sequence of `set_lang_items` calls, threading the `LANG_ITEMS` state;
the first panic aborts the run. -/
def runInstalls (s : Option LangItems) :
    List LangItems → Except String (Option LangItems)
  | [] => Except.ok s
  | t :: rest =>
      match set_lang_items s t with
      | Except.ok s2 => runInstalls s2 rest
      | Except.error e => Except.error e

/-- Two tables have equal content hashes iff they agree on the 25 hashed
bindings (in the order the `Hash` impl visits them). -/
lemma hash128_eq_iff (t1 t2 : LangItems) :
    hash128 t1 = hash128 t2 ↔
      (t1.layout = t2.layout ∧ t1.em = t2.em ∧ t1.dir = t2.dir ∧
       t1.space = t2.space ∧ t1.linebreak = t2.linebreak ∧
       t1.text = t2.text ∧ t1.text_id = t2.text_id ∧
       t1.text_str = t2.text_str ∧ t1.smart_quote = t2.smart_quote ∧
       t1.parbreak = t2.parbreak ∧ t1.strong = t2.strong ∧
       t1.emph = t2.emph ∧ t1.raw = t2.raw ∧ t1.link = t2.link ∧
       t1.reference = t2.reference ∧ t1.heading = t2.heading ∧
       t1.list_item = t2.list_item ∧ t1.enum_item = t2.enum_item ∧
       t1.term_item = t2.term_item ∧ t1.formula = t2.formula ∧
       t1.math_align_point = t2.math_align_point ∧
       t1.math_delimited = t2.math_delimited ∧
       t1.math_attach = t2.math_attach ∧
       t1.math_accent = t2.math_accent ∧
       t1.math_frac = t2.math_frac) := by
  simp [hash128]

/-- A second install that returns normally never replaces the stored table. -/
lemma set_preserves (t x : LangItems) (s2 : Option LangItems)
    (h : set_lang_items (some t) x = Except.ok s2) : s2 = some t := by
  by_cases hc : hash128 t = hash128 x
  · simp [set_lang_items, hc] at h
    exact h.symm
  · simp [set_lang_items, hc] at h

/-- The all-zero table, used as a concrete test fixture. -/
def zeroItems : LangItems :=
  ⟨0, 0, 0, 0, 0, 0, 0, 0, 0, 0, 0, 0, 0, 0, 0, 0, 0, 0, 0, 0, 0, 0, 0, 0,
   0, 0, 0, 0⟩

/-- The all-zero table with a different `raw_languages` binding (an unhashed
binding). -/
def rawLangsItems : LangItems := { zeroItems with raw_languages := 1 }

/-- The all-zero table with a different `em` binding (a hashed binding). -/
def emItems : LangItems := { zeroItems with em := 1 }

/-- C1 is false as stated: `zeroItems` and `rawLangsItems` differ in a
binding (`raw_languages`), yet installing the first and then the second is
not fatal — `set_lang_items` returns normally, because `raw_languages` is
not covered by the content hash. -/
theorem claim1_counterexample :
    zeroItems ≠ rawLangsItems ∧
    set_lang_items (some zeroItems) rawLangsItems =
      Except.ok (some zeroItems) :=
  ⟨by decide, rfl⟩

/-- C1 (amended): a second installation attempt is legal (returns normally,
leaving the first table installed) iff the second table agrees with the
first on the 25 hashed bindings; agreement on `raw_languages`,
`bibliography_keys` and `counter_method` is not required. -/
theorem claim1_amended (t1 t2 : LangItems) :
    set_lang_items (some t1) t2 = Except.ok (some t1) ↔
      (t1.layout = t2.layout ∧ t1.em = t2.em ∧ t1.dir = t2.dir ∧
       t1.space = t2.space ∧ t1.linebreak = t2.linebreak ∧
       t1.text = t2.text ∧ t1.text_id = t2.text_id ∧
       t1.text_str = t2.text_str ∧ t1.smart_quote = t2.smart_quote ∧
       t1.parbreak = t2.parbreak ∧ t1.strong = t2.strong ∧
       t1.emph = t2.emph ∧ t1.raw = t2.raw ∧ t1.link = t2.link ∧
       t1.reference = t2.reference ∧ t1.heading = t2.heading ∧
       t1.list_item = t2.list_item ∧ t1.enum_item = t2.enum_item ∧
       t1.term_item = t2.term_item ∧ t1.formula = t2.formula ∧
       t1.math_align_point = t2.math_align_point ∧
       t1.math_delimited = t2.math_delimited ∧
       t1.math_attach = t2.math_attach ∧
       t1.math_accent = t2.math_accent ∧
       t1.math_frac = t2.math_frac) := by
  rw [← hash128_eq_iff]
  by_cases h : hash128 t1 = hash128 t2
  · simp [set_lang_items, h]
  · simp [set_lang_items, h]

/-- C2: the content hash covers only 25 of the 28 bindings.  After a
successful install of `t1`, a second `set_lang_items` with a table differing
from `t1` only in `raw_languages`, `bibliography_keys` and `counter_method`
returns normally with the stored table unchanged (so every lookup still
returns `t1`'s bindings), while the fatal `assert_eq!` fires iff the content
hashes — i.e. one of the hashed bindings — differ. -/
theorem claim2 (t1 t2 : LangItems) (a b c : Nat) :
    (set_lang_items (some t1)
        { t1 with raw_languages := a, bibliography_keys := b,
                  counter_method := c } = Except.ok (some t1)) ∧
    ((∃ e, set_lang_items (some t1) t2 = Except.error e) ↔
      hash128 t1 ≠ hash128 t2) := by
  refine ⟨by simp [set_lang_items, hash128], ?_⟩
  by_cases h : hash128 t1 = hash128 t2
  · simp [set_lang_items, h]
  · simp [set_lang_items, h]

/-- C2 witness: a concrete run — differing only in the three unhashed
bindings is accepted; differing in the hashed `em` binding is fatal. -/
theorem claim2_witness :
    set_lang_items (some zeroItems)
        { zeroItems with raw_languages := 5, bibliography_keys := 6,
                         counter_method := 7 } =
      Except.ok (some zeroItems) ∧
    (∃ e, set_lang_items (some zeroItems) emItems = Except.error e) :=
  ⟨(claim2 zeroItems emItems 5 6 7).1,
   ((claim2 zeroItems emItems 5 6 7).2).mpr (by decide)⟩

/-- C4: installing into an empty registry succeeds; a second install with an
identically-hashing table succeeds and leaves the stored table (hence every
lookup result) unchanged; a second install with a differently-hashing table
hits the fatal `assert_eq!`.  The decision is by content-hash comparison. -/
theorem claim4 (t1 t2 : LangItems) :
    (hash128 t1 = hash128 t2 →
      set_lang_items none t1 = Except.ok (some t1) ∧
      set_lang_items (some t1) t2 = Except.ok (some t1)) ∧
    (hash128 t1 ≠ hash128 t2 →
      set_lang_items (some t1) t2 =
        Except.error "set differing lang items") := by
  constructor
  · intro h
    exact ⟨rfl, by simp [set_lang_items, h]⟩
  · intro h
    simp [set_lang_items, h]

/-- C4 witness: both branches at concrete tables. -/
theorem claim4_witness :
    (set_lang_items none zeroItems = Except.ok (some zeroItems) ∧
     set_lang_items (some zeroItems) rawLangsItems =
       Except.ok (some zeroItems)) ∧
    set_lang_items (some zeroItems) emItems =
      Except.error "set differing lang items" :=
  ⟨(claim4 zeroItems rawLangsItems).1 (by decide),
   (claim4 zeroItems emItems).2 (by decide)⟩

/-- C5: a lookup through `item!` before any installation hits
`LANG_ITEMS.get().unwrap()` on an empty cell, a panic — modelled as `none`.
For every role the result is the panic, never a silently returned value. -/
theorem claim5 : ∀ r : Role, item none r = none := by
  intro r
  rfl

/-- C7: after installing `t1`, attempting to install a table that differs
from `t1` only in the `dir` binding is fatal: `dir` is hashed, so the two
content hashes differ and `set_lang_items` panics on the mismatch. -/
theorem claim7 (t1 : LangItems) (d : Nat) (h : d ≠ t1.dir) :
    hash128 t1 ≠ hash128 { t1 with dir := d } ∧
    set_lang_items (some t1) { t1 with dir := d } =
      Except.error "set differing lang items" := by
  have hne : hash128 t1 ≠ hash128 { t1 with dir := d } := by
    intro heq
    rw [hash128_eq_iff] at heq
    exact h heq.2.2.1.symm
  exact ⟨hne, by simp [set_lang_items, hne]⟩

/-- C7 witness: concrete instance with the `dir` binding changed. -/
theorem claim7_witness :
    hash128 zeroItems ≠ hash128 { zeroItems with dir := 1 } ∧
    set_lang_items (some zeroItems) { zeroItems with dir := 1 } =
      Except.error "set differing lang items" :=
  claim7 zeroItems 1 (by decide)

/-- C8: once a table `t` is installed, no sequence of further
`set_lang_items` calls that returns normally ever changes the stored table:
the final state is still `some t`, and every lookup returns `t`'s binding
for its role. -/
theorem claim8 (t : LangItems) (l : List LangItems) (s2 : Option LangItems)
    (h : runInstalls (some t) l = Except.ok s2) :
    s2 = some t ∧ ∀ r : Role, item s2 r = some (t.get r) := by
  suffices hs : s2 = some t by
    subst hs
    exact ⟨rfl, fun r => rfl⟩
  induction l with
  | nil =>
      simp [runInstalls] at h
      exact h.symm
  | cons x rest ih =>
      rw [runInstalls] at h
      cases hx : set_lang_items (some t) x with
      | ok s3 =>
          rw [hx] at h
          have h3 := set_preserves t x s3 hx
          subst h3
          exact ih h
      | error e =>
          rw [hx] at h
          cases h

/-- C8 witness: a concrete session — install `zeroItems`, reinstall it, then
install a table differing only in an unhashed binding; the stored table and
the `dir` lookup are unchanged. -/
theorem claim8_witness :
    item (some zeroItems) Role.dir = some (zeroItems.get Role.dir) :=
  (claim8 zeroItems [zeroItems, rawLangsItems] (some zeroItems) rfl).2
    Role.dir

/-!
Embedding of `src/layout/nodes/mod.rs`.

The external types `LayoutContext`, `LayoutConstraints` and `LayoutItem`
live outside this repository; they are abstract type parameters bundled in
`LayoutSig`.  The `&mut LayoutContext` argument of `Layout::layout` is
modelled by state passing (the function returns the updated context
alongside the `Vec<LayoutItem>`); per §5 of the design the `async` in the
source is purely cooperative single-threaded suspension, so `layout` is a
plain total function.

A concrete Rust type `T : Debug + Layout + PartialEq + Clone + 'static` is
modelled by a `NodeImpl`: its carrier together with its `PartialEq`
(`beq`), `Clone` (`clone`) and `Layout` (`layout`) implementations.  The
open universe of such types is a `DynUniverse`: an index type with
decidable equality (Rust `TypeId` comparison of `'static` types) and a
`NodeImpl` per index.  A trait object `Box<dyn DynNode>` is a dependent
pair of a type index and a value of its carrier.
-/

/-- The three abstract types of the layout contract. -/
structure LayoutSig where
  Ctx : Type
  Constraints : Type
  Item : Type

/-- The capabilities of one concrete node type: the requirements
`Debug + Layout + PartialEq + Clone + 'static` of the blanket
`impl<T> DynNode for T` (lines 136–155). -/
structure NodeImpl (L : LayoutSig) where
  carrier : Type
  beq : carrier → carrier → Bool
  clone : carrier → carrier
  layout : carrier → L.Ctx → L.Constraints → L.Ctx × List L.Item

/-- The open universe of concrete node types, indexed with decidable
equality of indices (`TypeId` comparison backing `Any::downcast_ref`). -/
structure DynUniverse (L : LayoutSig) where
  Id : Type
  deq : DecidableEq Id
  impl : Id → NodeImpl L

/-- `Dynamic` (line 79): a boxed trait object `Box<dyn DynNode>` — a value
of some concrete node type together with its type index. -/
def Dynamic (L : LayoutSig) (U : DynUniverse L) : Type :=
  Σ i : U.Id, (U.impl i).carrier

/-- `Dynamic::new` (lines 83–85): wrap a value of a concrete node type. -/
def Dynamic.new {L : LayoutSig} {U : DynUniverse L} (i : U.Id)
    (x : (U.impl i).carrier) : Dynamic L U :=
  ⟨i, x⟩

/-- `as_any().downcast_ref::<T>()` (lines 140–142 plus `Any` downcast):
view the payload at type index `j`; `some` iff the concrete type matches. -/
def as_any_downcast {L : LayoutSig} {U : DynUniverse L} (d : Dynamic L U)
    (j : U.Id) : Option ((U.impl j).carrier) :=
  match U.deq d.1 j with
  | Decidable.isTrue h => some (h ▸ d.2)
  | Decidable.isFalse _ => none

/-- `dyn_eq` from the blanket impl (lines 144–150): downcast the other
payload to this payload's concrete type; on success compare with that
type's own equality, otherwise report `false`. -/
def dyn_eq {L : LayoutSig} {U : DynUniverse L} (d e : Dynamic L U) : Bool :=
  match as_any_downcast e d.1 with
  | some o => (U.impl d.1).beq d.2 o
  | none => false

/-- `dyn_clone` from the blanket impl (lines 152–154): clone the payload
with its concrete type's `Clone`, at the same type index. -/
def dyn_clone {L : LayoutSig} {U : DynUniverse L} (d : Dynamic L U) :
    Dynamic L U :=
  ⟨d.1, (U.impl d.1).clone d.2⟩

/-- Layout of a trait object: dispatch through the vtable to the concrete
type's `Layout` impl (used by `LayoutNode::layout` via `Deref`). -/
def Dynamic.layout {L : LayoutSig} {U : DynUniverse L} (d : Dynamic L U)
    (c : L.Ctx) (k : L.Constraints) : L.Ctx × List L.Item :=
  (U.impl d.1).layout d.2 c k

/-- The built-in node kinds `Spacing` and `Text` live in sibling modules
not included in this slice; they are abstract carriers with their derived
`PartialEq`/`Clone` and their `Layout` impls, bundled with the dynamic
universe. -/
structure NodeEnv (L : LayoutSig) where
  Spacing : Type
  Text : Type
  spacingBeq : Spacing → Spacing → Bool
  textBeq : Text → Text → Bool
  spacingClone : Spacing → Spacing
  textClone : Text → Text
  spacingLayout : Spacing → L.Ctx → L.Constraints → L.Ctx × List L.Item
  textLayout : Text → L.Ctx → L.Constraints → L.Ctx × List L.Item
  U : DynUniverse L

/-- `LayoutNode` (lines 28–36): the closed union of the two built-in kinds
plus the open dynamic case. -/
inductive LayoutNode (L : LayoutSig) (E : NodeEnv L) where
  | Spacing (s : E.Spacing)
  | Text (t : E.Text)
  | Dyn (d : Dynamic L E.U)

/-- `LayoutNode::dynamic` (lines 40–42): wrap a concrete node type value as
the dynamic variant. -/
def LayoutNode.dynamic {L : LayoutSig} {E : NodeEnv L} (i : E.U.Id)
    (x : (E.U.impl i).carrier) : LayoutNode L E :=
  LayoutNode.Dyn ⟨i, x⟩

/-- `derive(PartialEq)` on `LayoutNode` (line 28): same variant compares
payloads (for `Dyn` via `impl PartialEq for Dynamic`, lines 88–92, which
delegates to `dyn_eq` through `impl PartialEq for Box<dyn DynNode>`, lines
163–167); different variants compare unequal. -/
def LayoutNode.beq {L : LayoutSig} {E : NodeEnv L} :
    LayoutNode L E → LayoutNode L E → Bool
  | .Spacing a, .Spacing b => E.spacingBeq a b
  | .Text a, .Text b => E.textBeq a b
  | .Dyn a, .Dyn b => dyn_eq a b
  | _, _ => false

/-- `derive(Clone)` on `LayoutNode` (line 28): clone the active payload
(for `Dyn` via `impl Clone for Box<dyn DynNode>`, lines 157–161, which
calls `dyn_clone`). -/
def LayoutNode.clone {L : LayoutSig} {E : NodeEnv L} :
    LayoutNode L E → LayoutNode L E
  | .Spacing s => .Spacing (E.spacingClone s)
  | .Text t => .Text (E.textClone t)
  | .Dyn d => .Dyn (dyn_clone d)

/-- `impl Layout for LayoutNode` (lines 55–68): dispatch to the active
variant's `layout`. -/
def LayoutNode.layout {L : LayoutSig} {E : NodeEnv L} :
    LayoutNode L E → L.Ctx → L.Constraints → L.Ctx × List L.Item
  | .Spacing s, c, k => E.spacingLayout s c k
  | .Text t, c, k => E.textLayout t c k
  | .Dyn d, c, k => d.layout c k

/-- Downcasting a wrapper at its own concrete type yields the payload. -/
lemma downcast_self {L : LayoutSig} {U : DynUniverse L} (i : U.Id)
    (x : (U.impl i).carrier) :
    as_any_downcast (⟨i, x⟩ : Dynamic L U) i = some x := by
  unfold as_any_downcast
  cases U.deq i i with
  | isTrue h => rfl
  | isFalse h => exact absurd rfl h

/-- Downcasting a wrapper at a different concrete type yields `none`. -/
lemma downcast_ne {L : LayoutSig} {U : DynUniverse L} (i j : U.Id)
    (x : (U.impl i).carrier) (h : i ≠ j) :
    as_any_downcast (⟨i, x⟩ : Dynamic L U) j = none := by
  unfold as_any_downcast
  cases U.deq i j with
  | isTrue h2 => exact absurd h2 h
  | isFalse h2 => rfl

/-- `dyn_eq` on two wrappers of the same concrete type is that type's own
equality. -/
lemma dyn_eq_same {L : LayoutSig} {U : DynUniverse L} (i : U.Id)
    (x y : (U.impl i).carrier) :
    dyn_eq (⟨i, x⟩ : Dynamic L U) ⟨i, y⟩ = (U.impl i).beq x y := by
  simp only [dyn_eq, downcast_self]

/-- `dyn_eq` on two wrappers of differing concrete types is `false`. -/
lemma dyn_eq_ne {L : LayoutSig} {U : DynUniverse L} (i j : U.Id)
    (x : (U.impl i).carrier) (z : (U.impl j).carrier) (h : i ≠ j) :
    dyn_eq (⟨i, x⟩ : Dynamic L U) ⟨j, z⟩ = false := by
  simp only [dyn_eq, downcast_ne j i z (Ne.symm h)]

/-- C3: `dyn_eq` on wrappers of the same concrete type returns exactly that
type's own equality; on wrappers of differing concrete types it returns
`false` regardless of the payloads.  `dyn_clone` stays at the same type
index and applies the type's own `Clone`.  All three operations are total
functions: a type mismatch is inequality, never an error. -/
theorem claim3 {L : LayoutSig} {U : DynUniverse L} (i j : U.Id)
    (x y : (U.impl i).carrier) (z : (U.impl j).carrier) :
    (dyn_eq (⟨i, x⟩ : Dynamic L U) ⟨i, y⟩ = (U.impl i).beq x y) ∧
    (i ≠ j → dyn_eq (⟨i, x⟩ : Dynamic L U) ⟨j, z⟩ = false) ∧
    (dyn_clone (⟨i, x⟩ : Dynamic L U) = ⟨i, (U.impl i).clone x⟩) :=
  ⟨dyn_eq_same i x y, fun h => dyn_eq_ne i j x z h, rfl⟩

/-- A trivial layout signature for concrete test fixtures. -/
@[reducible] def unitSig : LayoutSig where
  Ctx := Unit
  Constraints := Unit
  Item := Unit

/-- A concrete node type with carrier `Nat`. -/
@[reducible] def natImpl : NodeImpl unitSig where
  carrier := Nat
  beq := fun a b => a == b
  clone := fun a => a
  layout := fun _ c _ => (c, [])

/-- A concrete node type with carrier `Bool`. -/
@[reducible] def boolImpl : NodeImpl unitSig where
  carrier := Bool
  beq := fun a b => a == b
  clone := fun a => a
  layout := fun _ c _ => (c, [])

/-- A two-type universe of concrete node types. -/
@[reducible] def twoUniverse : DynUniverse unitSig where
  Id := Bool
  deq := inferInstance
  impl := fun b => match b with
    | true => natImpl
    | false => boolImpl

/-- A concrete node environment over the two-type universe, with `Nat` as
the carrier of both built-in kinds. -/
@[reducible] def testEnv : NodeEnv unitSig where
  Spacing := Nat
  Text := Nat
  spacingBeq := fun a b => a == b
  textBeq := fun a b => a == b
  spacingClone := fun a => a
  textClone := fun a => a
  spacingLayout := fun _ c _ => (c, [])
  textLayout := fun _ c _ => (c, [])
  U := twoUniverse

/-- C3 witness: concrete same-type and cross-type comparisons in the
two-type universe. -/
theorem claim3_witness :
    (dyn_eq (⟨true, (3 : Nat)⟩ : Dynamic unitSig twoUniverse)
        ⟨true, (4 : Nat)⟩ = (twoUniverse.impl true).beq 3 4) ∧
    dyn_eq (⟨true, (3 : Nat)⟩ : Dynamic unitSig twoUniverse)
        ⟨false, true⟩ = false :=
  ⟨(@claim3 unitSig twoUniverse true false 3 4 true).1,
   (@claim3 unitSig twoUniverse true false 3 4 true).2.1 (by decide)⟩

/-- C6: for a value `x` of a concrete type whose `Clone` satisfies the
value-semantics requirement of the contract (the clone compares equal to
the original under the type's own equality), cloning the `Dyn` variant
yields a node that compares equal to the original node; and a `Dyn` node
compares unequal — in both directions — to every `Spacing` node and every
`Text` node, regardless of their contents. -/
theorem claim6 {L : LayoutSig} {E : NodeEnv L} (i : E.U.Id)
    (x : (E.U.impl i).carrier)
    (h : (E.U.impl i).beq ((E.U.impl i).clone x) x = true) :
    LayoutNode.beq
        (LayoutNode.clone (LayoutNode.Dyn ⟨i, x⟩ : LayoutNode L E))
        (LayoutNode.Dyn ⟨i, x⟩) = true ∧
    (∀ s : E.Spacing,
      LayoutNode.beq (LayoutNode.Dyn ⟨i, x⟩ : LayoutNode L E)
          (LayoutNode.Spacing s) = false ∧
      LayoutNode.beq (LayoutNode.Spacing s : LayoutNode L E)
          (LayoutNode.Dyn ⟨i, x⟩) = false) ∧
    (∀ t : E.Text,
      LayoutNode.beq (LayoutNode.Dyn ⟨i, x⟩ : LayoutNode L E)
          (LayoutNode.Text t) = false ∧
      LayoutNode.beq (LayoutNode.Text t : LayoutNode L E)
          (LayoutNode.Dyn ⟨i, x⟩) = false) := by
  refine ⟨?_, fun s => ⟨rfl, rfl⟩, fun t => ⟨rfl, rfl⟩⟩
  show dyn_eq (dyn_clone (⟨i, x⟩ : Dynamic L E.U)) ⟨i, x⟩ = true
  show dyn_eq (⟨i, (E.U.impl i).clone x⟩ : Dynamic L E.U) ⟨i, x⟩ = true
  rw [dyn_eq_same]
  exact h

/-- C6 witness: a concrete `Nat`-carrier dynamic node; its clone equals it,
and it is unequal to concrete `Spacing` and `Text` nodes in both
directions. -/
theorem claim6_witness :
    LayoutNode.beq
        (LayoutNode.clone
          (LayoutNode.Dyn ⟨true, (3 : Nat)⟩ : LayoutNode unitSig testEnv))
        (LayoutNode.Dyn ⟨true, (3 : Nat)⟩) = true ∧
    LayoutNode.beq
        (LayoutNode.Dyn ⟨true, (3 : Nat)⟩ : LayoutNode unitSig testEnv)
        (LayoutNode.Spacing 5) = false ∧
    LayoutNode.beq
        (LayoutNode.Dyn ⟨true, (3 : Nat)⟩ : LayoutNode unitSig testEnv)
        (LayoutNode.Text 7) = false :=
  ⟨(@claim6 unitSig testEnv true 3 (by decide)).1,
   ((@claim6 unitSig testEnv true 3 (by decide)).2.1 5).1,
   ((@claim6 unitSig testEnv true 3 (by decide)).2.2 7).1⟩

/-- C9: `LayoutNode::layout` dispatches to the `layout` of whichever
variant is active; its result type is a context plus a list of layout
items, so it always produces an output sequence and has no recoverable
error channel. -/
theorem claim9 {L : LayoutSig} {E : NodeEnv L} (c : L.Ctx)
    (k : L.Constraints) :
    (∀ s : E.Spacing,
      LayoutNode.layout (LayoutNode.Spacing s : LayoutNode L E) c k =
        E.spacingLayout s c k) ∧
    (∀ t : E.Text,
      LayoutNode.layout (LayoutNode.Text t : LayoutNode L E) c k =
        E.textLayout t c k) ∧
    (∀ d : Dynamic L E.U,
      LayoutNode.layout (LayoutNode.Dyn d : LayoutNode L E) c k =
        (E.U.impl d.1).layout d.2 c k) :=
  ⟨fun _ => rfl, fun _ => rfl, fun _ => rfl⟩

/-- C10: wrapping a value `x` at concrete type index `i` and downcasting
back at `i` always succeeds and returns `x` itself; consequently, whenever
the type's equality is reflexive, a wrapper of `x` compares equal under
`dyn_eq` to a wrapper of any value the type's equality deems equal to
`x`. -/
theorem claim10 {L : LayoutSig} {U : DynUniverse L} (i : U.Id)
    (x : (U.impl i).carrier) :
    as_any_downcast (Dynamic.new i x : Dynamic L U) i = some x ∧
    ((∀ z : (U.impl i).carrier, (U.impl i).beq z z = true) →
      ∀ y : (U.impl i).carrier, (U.impl i).beq x y = true →
        dyn_eq (Dynamic.new i x : Dynamic L U) (Dynamic.new i y) = true) :=
  ⟨downcast_self i x,
   fun _ y hxy => by
     show dyn_eq (⟨i, x⟩ : Dynamic L U) ⟨i, y⟩ = true
     rw [dyn_eq_same]
     exact hxy⟩

/-- C10 witness: round trip and equality at a concrete `Nat` payload. -/
theorem claim10_witness :
    as_any_downcast (Dynamic.new true (3 : Nat) : Dynamic unitSig
        twoUniverse) true = some 3 ∧
    dyn_eq (Dynamic.new true (3 : Nat) : Dynamic unitSig twoUniverse)
        (Dynamic.new true (3 : Nat)) = true :=
  ⟨(@claim10 unitSig twoUniverse true 3).1,
   (@claim10 unitSig twoUniverse true 3).2 (fun z => by simp) 3
     (by decide)⟩

end Typst
